import Mathlib

/-!
Shallow embedding of `src/pysphere/vi_event_history_collector.py`
(class `VIEventHistoryCollector`) and its interaction with the SOAP
transport, together with theorems checking the natural-language
specification's claims about it.

Modelling conventions:
* SOAP request messages become Lean structures whose fields mirror the
  elements set on the request objects (`set_element_*` calls).  An
  optional element that was never set is `none`.
* The transport (`server._proxy.X(request)`) is an external collaborator;
  each method embedding takes it as a function argument from the request
  type to `RpcResult`, where a `Fault` value stands for the transport
  raising `VI.ZSI.FaultException`.
* Python exceptions escaping a method become the `PyError` inductive:
  `viException` is `pysphere.VIException(msg, fault_type)`,
  `viApiException f` is `pysphere.VIApiException(e)` wrapping the original
  transport fault `e`, and `rawFault f` is an *uncaught*
  `VI.ZSI.FaultException` propagating out of a method that has no
  `try/except` around its proxy call.
* Each method embedding also returns the list of network calls it issued,
  so that "zero network calls" and "exactly one call against handle h"
  are statable.
-/

/-- Detail carried by a `VI.ZSI.FaultException` raised by the transport. -/
structure Fault where
  detail : String
deriving DecidableEq, Repr

/-- Python exceptions that can escape a `VIEventHistoryCollector` method. -/
inductive PyError where
  /-- `VIException(msg, fault_type)`, e.g. with `FaultTypes.PARAMETER_ERROR`. -/
  | viException (msg : String) (faultType : String)
  /-- `VIApiException(e)` wrapping transport fault `e` (translated fault). -/
  | viApiException (f : Fault)
  /-- An uncaught `VI.ZSI.FaultException` propagating unwrapped. -/
  | rawFault (f : Fault)
deriving DecidableEq, Repr

/-- `FaultTypes.PARAMETER_ERROR` from `pysphere.resources.vi_exception`. -/
def FaultTypes.PARAMETER_ERROR : String := "Parameter Error"

/-- Whether an escaping exception is the local parameter-validation error. -/
def PyError.isParamError : PyError → Bool
  | .viException _ ft => ft == FaultTypes.PARAMETER_ERROR
  | _ => false

/-- Whether an escaping exception is the wrapped API exception type. -/
def PyError.isViApiException : PyError → Bool
  | .viApiException _ => true
  | _ => false

/-- Outcome of one proxy call: a value, or a raised `VI.ZSI.FaultException`. -/
abbrev RpcResult (α : Type) := Except Fault α

/-- A managed object reference together with its attribute type, as placed
into a request by `request.new__this(mor)` followed by
`_this.set_attribute_type(mor.get_attribute_type())`. -/
structure MOR where
  value : String
  attrType : String
deriving DecidableEq, Repr

/-- A server time tuple (`time.struct_time`-style 9-tuple), the documented
argument type of `beginTime` / `endTime`.  A 9-tuple is always truthy in
Python, so truthiness of the argument is `Option.isSome`. -/
structure TimeTuple where
  year : Nat
  month : Nat
  day : Nat
  hour : Nat
  minute : Nat
  second : Nat
  wday : Nat
  yday : Nat
  isdst : Nat
deriving DecidableEq, Repr

/-- Python truthiness of an optional list argument: `None` and the empty
list are falsy, a non-empty list is truthy. -/
def pyTruthyList {α : Type} : Option (List α) → Bool
  | none => false
  | some l => !l.isEmpty

/-- An opaque event record reference as returned inside the server's
response (`resp` elements / `latestPage` entries). -/
abbrev EventRef := String

/-- The `EventFilterSpecByTime` sub-structure built by `_filter.new_time()`
with its two optional elements. -/
structure EventFilterSpecByTime where
  beginTime : Option TimeTuple := none
  endTime : Option TimeTuple := none
deriving DecidableEq, Repr

/-- The `EventFilterSpecByUser` sub-structure built by
`_filter.new_userName()`: a mandatory `systemUser` element plus an
optional `userList` element. -/
structure EventFilterSpecByUser where
  systemUser : Bool
  userList : Option (List String) := none
deriving DecidableEq, Repr

/-- The `EventFilterSpec` built by `request.new_filter()` with its three
optional sub-filter elements. -/
structure EventFilterSpec where
  time : Option EventFilterSpecByTime := none
  eventTypeId : Option (List String) := none
  userName : Option EventFilterSpecByUser := none
deriving DecidableEq, Repr

/-- The `CreateCollectorForEventsRequestMsg` as assembled by `__init__`. -/
structure CreateCollectorRequest where
  this_ : MOR
  filter : Option EventFilterSpec := none
deriving DecidableEq, Repr

/-- A request message carrying only the `_this` element
(`ResetCollectorRequestMsg`, `RewindCollectorRequestMsg`,
`DestroyCollectorRequestMsg`). -/
structure MsgWithThis where
  this_ : MOR
deriving DecidableEq, Repr

/-- Python values relevant to the `maxCount` arguments; `isInstInt`
mirrors `isinstance(x, int)`. -/
inductive PyVal where
  | int (n : Int)
  | bool (b : Bool)
  | str (s : String)
  | float (q : Int) (r : Int)
  | pyNone
deriving DecidableEq, Repr

/-- `isinstance(x, int)`.  In Python, `bool` is a subclass of `int`, so
`isinstance(True, int)` is `True`. -/
def PyVal.isInstInt : PyVal → Bool
  | .int _ => true
  | .bool _ => true
  | _ => false

/-- `SetCollectorPageSizeRequestMsg`: `_this` plus a `maxCount` element. -/
structure PageSizeRequest where
  this_ : MOR
  maxCount : PyVal
deriving DecidableEq, Repr

/-- `ReadNextEventsRequestMsg` / `ReadPreviousEventsRequestMsg`: `_this`
plus a `maxCount` element. -/
structure ReadEventsRequest where
  this_ : MOR
  maxCount : PyVal
deriving DecidableEq, Repr

/-- One network call issued through `self._server._proxy`. -/
inductive NetworkCall where
  | createCollectorForEvents (r : CreateCollectorRequest)
  | resetCollector (r : MsgWithThis)
  | rewindCollector (r : MsgWithThis)
  | destroyCollector (r : MsgWithThis)
  | setCollectorPageSize (r : PageSizeRequest)
  | readNextEvents (r : ReadEventsRequest)
  | readPreviousEvents (r : ReadEventsRequest)
deriving DecidableEq, Repr

/-- Modelled from the spec: the lazy `VIProperty` view created by
`VIProperty(self._server, self._mor)` (class not under `src/`).  Per the
spec it is "a lazy property-view constructor taking (session,
resource-reference) and exposing attribute-style access with an explicit
cache-flush operation": attribute access fetches the remote property on a
cache miss and caches it; `_flush_cache` empties the cache.  `cache`
holds `some v` when a `latestPage` lookup result `v` is cached (`v = none`
meaning the attribute was found absent), and `none` when the cache is
empty. -/
structure VIPropsView where
  mor : MOR
  cache : Option (Option (List EventRef)) := none
deriving DecidableEq, Repr

/-- Modelled from the spec: `self._props._flush_cache()` empties the
cached property view. -/
def VIPropsView.flushCache (p : VIPropsView) : VIPropsView :=
  { p with cache := none }

/-- Modelled from the spec: attribute-style access to `latestPage`
(`hasattr` / `getattr`): on a cache miss the current remote value
`serverVal` is fetched and cached; on a hit the cached value is returned
untouched. -/
def VIPropsView.getLatestPage (p : VIPropsView)
    (serverVal : Option (List EventRef)) :
    Option (List EventRef) × VIPropsView :=
  match p.cache with
  | some v => (v, p)
  | none => (serverVal, { p with cache := some serverVal })

/-- Modelled from the spec: `VIProperty(self._server, event)`, the lazy
wrapper placed around each event record returned by a read call; fields
are fetched on demand, so at wrap time it only holds the reference. -/
structure VIPropertyWrap where
  obj : EventRef
deriving DecidableEq, Repr

/-- The fields of `self` assigned inside `__init__`
(`self._mor`, `self._props`); used to state what construction leaves
behind when it fails. -/
structure InitFields where
  mor : Option MOR := none
  props : Option VIPropsView := none
deriving DecidableEq, Repr

/-- A successfully constructed `VIEventHistoryCollector` instance:
`self._mor` holds the collector handle, `self._props` the property view. -/
structure VIEventHistoryCollector where
  mor : MOR
  props : VIPropsView
deriving DecidableEq, Repr

/-- The filter-assembly part of `__init__` (lines 72–100): starting from
`request.new_filter()`, conditionally attach the time, event-type and
user sub-filters following the source's truthiness tests. -/
def buildEventFilter (include_types : Option (List String))
    (include_users : Option (List String × Bool))
    (beginTime endTime : Option TimeTuple) : EventFilterSpec :=
  let f : EventFilterSpec := {}
  let f :=
    if beginTime.isSome || endTime.isSome then
      let t : EventFilterSpecByTime := {}
      let t := if beginTime.isSome then { t with beginTime := beginTime } else t
      let t := if endTime.isSome then { t with endTime := endTime } else t
      { f with time := some t }
    else f
  let f :=
    if pyTruthyList include_types then { f with eventTypeId := include_types }
    else f
  match include_users with
  | none => f
  | some (users, system) =>
      let u : EventFilterSpecByUser := { systemUser := system }
      let u := if !users.isEmpty then { u with userList := some users } else u
      { f with userName := some u }

/-- The complete `CreateCollectorForEventsRequestMsg` assembled by
`__init__`: `_this` is the session's `EventManager` reference, and the
assembled filter is attached unconditionally
(`request.set_element_filter(_filter)` at line 100). -/
def buildCreateRequest (event_manager : MOR)
    (include_types : Option (List String))
    (include_users : Option (List String × Bool))
    (beginTime endTime : Option TimeTuple) : CreateCollectorRequest :=
  { this_ := event_manager
    filter := some (buildEventFilter include_types include_users beginTime endTime) }

/-- `VIEventHistoryCollector.__init__`: assigns `self._mor = None`, builds
the create request, issues it, translates a `VI.ZSI.FaultException` into
`VIApiException(e)`, and on success stores the returned handle and builds
the lazy property view.  Returns the `self` fields as left at exit (normal
or exceptional), the escaping exception if any, and the issued calls. -/
def viehc_init (event_manager : MOR)
    (include_types : Option (List String))
    (include_users : Option (List String × Bool))
    (beginTime endTime : Option TimeTuple)
    (proxyCreate : CreateCollectorRequest → RpcResult MOR) :
    InitFields × Option PyError × List NetworkCall :=
  let request := buildCreateRequest event_manager include_types include_users
      beginTime endTime
  match proxyCreate request with
  | .error e =>
      ({ mor := none, props := none }, some (.viApiException e),
        [.createCollectorForEvents request])
  | .ok resp =>
      ({ mor := some resp, props := some { mor := resp } }, none,
        [.createCollectorForEvents request])

/-- The successfully constructed instance produced by `__init__` when the
proxy call returns handle `resp`. -/
def viehc_mk (resp : MOR) : VIEventHistoryCollector :=
  { mor := resp, props := { mor := resp } }

/-- `reset_collector`: builds a `ResetCollectorRequestMsg` on `self._mor`
and issues it with no surrounding `try/except`, so a transport fault
propagates unwrapped. -/
def VIEventHistoryCollector.reset_collector (c : VIEventHistoryCollector)
    (proxy : MsgWithThis → RpcResult Unit) :
    VIEventHistoryCollector × Except PyError Unit × List NetworkCall :=
  let request : MsgWithThis := { this_ := c.mor }
  (c,
    (match proxy request with
     | .ok _ => .ok ()
     | .error e => .error (.rawFault e)),
    [.resetCollector request])

/-- `rewind_collector`: same shape as `reset_collector`, no `try/except`. -/
def VIEventHistoryCollector.rewind_collector (c : VIEventHistoryCollector)
    (proxy : MsgWithThis → RpcResult Unit) :
    VIEventHistoryCollector × Except PyError Unit × List NetworkCall :=
  let request : MsgWithThis := { this_ := c.mor }
  (c,
    (match proxy request with
     | .ok _ => .ok ()
     | .error e => .error (.rawFault e)),
    [.rewindCollector request])

/-- `destroy_collector`: same shape, no `try/except`, and no change to any
`self` field (in particular `self._mor` is kept). -/
def VIEventHistoryCollector.destroy_collector (c : VIEventHistoryCollector)
    (proxy : MsgWithThis → RpcResult Unit) :
    VIEventHistoryCollector × Except PyError Unit × List NetworkCall :=
  let request : MsgWithThis := { this_ := c.mor }
  (c,
    (match proxy request with
     | .ok _ => .ok ()
     | .error e => .error (.rawFault e)),
    [.destroyCollector request])

/-- `set_collector_page_size(maxCount)`: builds the request with
`maxCount` set as-is (no local validation) and issues it with no
`try/except`. -/
def VIEventHistoryCollector.set_collector_page_size
    (c : VIEventHistoryCollector) (maxCount : PyVal)
    (proxy : PageSizeRequest → RpcResult Unit) :
    VIEventHistoryCollector × Except PyError Unit × List NetworkCall :=
  let request : PageSizeRequest := { this_ := c.mor, maxCount := maxCount }
  (c,
    (match proxy request with
     | .ok _ => .ok ()
     | .error e => .error (.rawFault e)),
    [.setCollectorPageSize request])

/-- `get_latest_events`: flushes the property-view cache, then reads
`latestPage` via attribute access (`hasattr` fetches and caches the
current remote value `serverVal`); if absent returns `[]`, otherwise
copies the page items in order into a fresh list.  Issues no proxy call. -/
def VIEventHistoryCollector.get_latest_events (c : VIEventHistoryCollector)
    (serverVal : Option (List EventRef)) :
    List EventRef × VIEventHistoryCollector × List NetworkCall :=
  let p := c.props.flushCache
  let (v, p) := p.getLatestPage serverVal
  match v with
  | none => ([], { c with props := p }, [])
  | some page =>
      (page.foldl (fun ret event => ret ++ [event]) [],
        { c with props := p }, [])

/-- `__read_events(max_count, next_page)`: validates
`isinstance(max_count, int)` raising
`VIException(..., FaultTypes.PARAMETER_ERROR)` *before* any request is
built or sent; otherwise builds the next/previous read request with
`maxCount` set to the argument, issues it inside `try/except` translating
a fault into `VIApiException(e)`, and wraps each response record in
`VIProperty`. -/
def VIEventHistoryCollector.read_events (c : VIEventHistoryCollector)
    (max_count : PyVal) (next_page : Bool)
    (proxyNext proxyPrev : ReadEventsRequest → RpcResult (List EventRef)) :
    Except PyError (List VIPropertyWrap) × List NetworkCall :=
  if !max_count.isInstInt then
    (.error (.viException "max_count should be an integer"
        FaultTypes.PARAMETER_ERROR), [])
  else
    let request : ReadEventsRequest := { this_ := c.mor, maxCount := max_count }
    match (if next_page then proxyNext request else proxyPrev request) with
    | .error e => (.error (.viApiException e),
        [if next_page then .readNextEvents request
         else .readPreviousEvents request])
    | .ok resp =>
        (.ok (resp.foldl (fun ret event => ret ++ [⟨event⟩]) []),
          [if next_page then .readNextEvents request
           else .readPreviousEvents request])

/-- `read_next_events(max_count)` delegates to
`__read_events(max_count, True)`. -/
def VIEventHistoryCollector.read_next_events (c : VIEventHistoryCollector)
    (max_count : PyVal)
    (proxyNext proxyPrev : ReadEventsRequest → RpcResult (List EventRef)) :
    Except PyError (List VIPropertyWrap) × List NetworkCall :=
  c.read_events max_count true proxyNext proxyPrev

/-- `read_previous_events(max_count)` delegates to
`__read_events(max_count, False)`. -/
def VIEventHistoryCollector.read_previous_events (c : VIEventHistoryCollector)
    (max_count : PyVal)
    (proxyNext proxyPrev : ReadEventsRequest → RpcResult (List EventRef)) :
    Except PyError (List VIPropertyWrap) × List NetworkCall :=
  c.read_events max_count false proxyNext proxyPrev

/-! ## Helper lemmas and concrete fixtures -/

/-- The `for event in resp: ret.append(f(event))` loop pattern builds
`acc ++ resp.map f`. -/
theorem foldl_append_map {α β : Type} (f : α → β) (l : List α) (acc : List β) :
    l.foldl (fun r e => r ++ [f e]) acc = acc ++ l.map f := by
  induction l generalizing acc with
  | nil => simp
  | cons x xs ih => simp [List.foldl_cons, ih]

/-- A concrete `EventManager` reference. -/
def emMor : MOR := { value := "EventManager", attrType := "EventManager" }

/-- A concrete collector handle. -/
def mor0 : MOR := { value := "session[42]EventHistoryCollector-1",
                    attrType := "EventHistoryCollector" }

/-- A concrete constructed collector instance. -/
def c0 : VIEventHistoryCollector := viehc_mk mor0

/-- A concrete transport fault. -/
def faultBoom : Fault := { detail := "ServerFaultCode: ManagedObjectNotFound" }

/-- Whether a method outcome is an escaped local parameter-validation
error. -/
def resultParamError {α : Type} : Except PyError α → Bool
  | .error e => e.isParamError
  | .ok _ => false

/-! ## Claim theorems -/

/-- C1 (counterexample): a transport fault during `reset_collector` is
*not* surfaced as the wrapped API exception type `VIApiException`: the
method has no `try/except`, so the raw `VI.ZSI.FaultException` propagates
unwrapped, refuting the claim that every network-reaching operation
surfaces faults as `VIApiException`. -/
theorem C1_reset_fault_not_wrapped :
    (c0.reset_collector (fun _ => .error faultBoom)).2.1 =
      Except.error (PyError.rawFault faultBoom) ∧
    (PyError.rawFault faultBoom).isViApiException = false :=
  ⟨rfl, rfl⟩

/-- C1 (amended): construction and `read_next_events` /
`read_previous_events` surface a transport fault as `VIApiException`
preserving the original fault detail, while `reset_collector`,
`rewind_collector`, `destroy_collector` and `set_collector_page_size`
propagate the raw transport fault unchanged (unwrapped); in every case
the fault is never swallowed and exactly one network call is issued
(never retried). -/
theorem C1_fault_translation_per_operation (f : Fault) (em : MOR)
    (c : VIEventHistoryCollector) (it : Option (List String))
    (iu : Option (List String × Bool)) (bt et : Option TimeTuple) (v : PyVal) :
    (viehc_init em it iu bt et (fun _ => .error f)).2.1 =
      some (.viApiException f) ∧
    (viehc_init em it iu bt et (fun _ => .error f)).2.2.length = 1 ∧
    c.read_next_events (.int 10) (fun _ => .error f) (fun _ => .error f) =
      (.error (.viApiException f),
        [.readNextEvents { this_ := c.mor, maxCount := .int 10 }]) ∧
    c.read_previous_events (.int 10) (fun _ => .error f) (fun _ => .error f) =
      (.error (.viApiException f),
        [.readPreviousEvents { this_ := c.mor, maxCount := .int 10 }]) ∧
    (c.reset_collector (fun _ => .error f)).2 =
      (.error (.rawFault f), [.resetCollector { this_ := c.mor }]) ∧
    (c.rewind_collector (fun _ => .error f)).2 =
      (.error (.rawFault f), [.rewindCollector { this_ := c.mor }]) ∧
    (c.destroy_collector (fun _ => .error f)).2 =
      (.error (.rawFault f), [.destroyCollector { this_ := c.mor }]) ∧
    (c.set_collector_page_size v (fun _ => .error f)).2 =
      (.error (.rawFault f),
        [.setCollectorPageSize { this_ := c.mor, maxCount := v }]) ∧
    (PyError.rawFault f).isViApiException = false :=
  ⟨rfl, rfl, rfl, rfl, rfl, rfl, rfl, rfl, rfl⟩

/-- C2 (counterexample): when no filter dimension is supplied, the filter
element is still attached to the `CreateCollectorForEvents` request
(`request.set_element_filter(_filter)` is unconditional), refuting the
claim that no filter element is sent in that case. -/
theorem C2_empty_filter_still_attached :
    (buildCreateRequest emMor none none none none).filter ≠ none := by
  simp [buildCreateRequest]

/-- C2 (amended): the assembled filter structure is always attached to
the `CreateCollectorForEvents` request, whether or not any filter
dimension was supplied; when no dimension is supplied the attached filter
is the empty filter element (no sub-filters set). -/
theorem C2_filter_always_attached (em : MOR) (it : Option (List String))
    (iu : Option (List String × Bool)) (bt et : Option TimeTuple) :
    ((buildCreateRequest em it iu bt et).filter).isSome = true ∧
    (buildCreateRequest em none none none none).filter =
      some ({} : EventFilterSpec) :=
  ⟨rfl, rfl⟩

/-- C3: `read_next_events` / `read_previous_events` with a `max_count`
that is not an integer raise `VIException` with the fixed
`PARAMETER_ERROR` classification — a local error distinct from the
wrapped server-side fault type — and issue zero network calls, whatever
the transport would have answered. -/
theorem C3_nonint_max_count_fails_locally (c : VIEventHistoryCollector)
    (v : PyVal) (pn pp : ReadEventsRequest → RpcResult (List EventRef))
    (h : v.isInstInt = false) :
    c.read_next_events v pn pp =
      (.error (.viException "max_count should be an integer"
          FaultTypes.PARAMETER_ERROR), []) ∧
    c.read_previous_events v pn pp =
      (.error (.viException "max_count should be an integer"
          FaultTypes.PARAMETER_ERROR), []) ∧
    (PyError.viException "max_count should be an integer"
        FaultTypes.PARAMETER_ERROR).isParamError = true ∧
    (PyError.viException "max_count should be an integer"
        FaultTypes.PARAMETER_ERROR).isViApiException = false := by
  refine ⟨?_, ?_, by decide, rfl⟩ <;>
    simp [VIEventHistoryCollector.read_next_events,
      VIEventHistoryCollector.read_previous_events,
      VIEventHistoryCollector.read_events, h]

/-- C3 (witness): instantiated at the string value `"ten"`, which is not
an integer. -/
theorem C3_witness :
    (PyVal.str "ten").isInstInt = false ∧
    (c0.read_next_events (.str "ten") (fun _ => .ok []) (fun _ => .ok []) =
      (.error (.viException "max_count should be an integer"
          FaultTypes.PARAMETER_ERROR), []) ∧
    c0.read_previous_events (.str "ten") (fun _ => .ok []) (fun _ => .ok []) =
      (.error (.viException "max_count should be an integer"
          FaultTypes.PARAMETER_ERROR), []) ∧
    (PyError.viException "max_count should be an integer"
        FaultTypes.PARAMETER_ERROR).isParamError = true ∧
    (PyError.viException "max_count should be an integer"
        FaultTypes.PARAMETER_ERROR).isViApiException = false) :=
  ⟨rfl, C3_nonint_max_count_fails_locally c0 (.str "ten")
    (fun _ => .ok []) (fun _ => .ok []) rfl⟩

/-- C4: in the constructed filter, the time sub-filter is attached iff
`beginTime` or `endTime` is present, carrying exactly the supplied
field(s); the event-type sub-filter is attached iff the type list is
non-empty; the user sub-filter is attached iff a user argument was
supplied, in which case the system-user flag is always set and the
user-name list element is attached only if the list is non-empty. -/
theorem C4_subfilters_iff_supplied (it : Option (List String))
    (iu : Option (List String × Bool)) (bt et : Option TimeTuple) :
    (buildEventFilter it iu bt et).time =
      (if bt.isSome || et.isSome then
        some { beginTime := bt, endTime := et }
       else none) ∧
    (buildEventFilter it iu bt et).eventTypeId =
      (if pyTruthyList it then it else none) ∧
    (buildEventFilter it iu bt et).userName =
      (match iu with
       | none => none
       | some (users, system) =>
          some { systemUser := system,
                 userList := if users.isEmpty then none else some users }) := by
  obtain _ | bt := bt <;> obtain _ | et := et <;>
    obtain _ | ⟨users, system⟩ := iu <;> obtain _ | ⟨u, us⟩ := it <;>
    simp [buildEventFilter, pyTruthyList] <;>
    cases users <;> simp

/-- C5: a transport fault during construction is raised as
`VIApiException` wrapping the fault detail, and construction is atomic:
the handle field `self._mor` is left `None` and no property view is
created (`self._props` is never assigned). -/
theorem C5_construction_fault_atomic (f : Fault) (em : MOR)
    (it : Option (List String)) (iu : Option (List String × Bool))
    (bt et : Option TimeTuple) :
    viehc_init em it iu bt et (fun _ => .error f) =
      ({ mor := none, props := none }, some (.viApiException f),
        [.createCollectorForEvents (buildCreateRequest em it iu bt et)]) ∧
    (PyError.viApiException f).isViApiException = true :=
  ⟨rfl, rfl⟩

/-- C6: `get_latest_events` first flushes the cached property view, so
whatever was cached before (`c.props.cache` is arbitrary here), the
result reflects the current remote value: the empty list when the
`latestPage` property is absent and exactly the current page items in
delivered order otherwise; afterwards the cache holds the refreshed
value, and no proxy call is issued. -/
theorem C6_latest_events_refreshed (c : VIEventHistoryCollector)
    (serverVal : Option (List EventRef)) :
    c.get_latest_events serverVal =
      (serverVal.getD [],
        { c with props := { c.props with cache := some serverVal } }, []) := by
  obtain ⟨m, p⟩ := c
  obtain _ | page := serverVal <;>
    simp [VIEventHistoryCollector.get_latest_events, VIPropsView.flushCache,
      VIPropsView.getLatestPage, foldl_append_map]

/-- C7: a successful `read_next_events` / `read_previous_events` wraps
each record of the server response in the lazy `VIProperty` view, in the
server-delivered order; an empty response yields the empty list, not an
error. -/
theorem C7_read_wraps_records_in_order (c : VIEventHistoryCollector)
    (mc : PyVal) (resp : List EventRef) (h : mc.isInstInt = true) :
    (c.read_next_events mc (fun _ => .ok resp) (fun _ => .ok resp)).1 =
      .ok (resp.map fun e => ({ obj := e } : VIPropertyWrap)) ∧
    (c.read_previous_events mc (fun _ => .ok resp) (fun _ => .ok resp)).1 =
      .ok (resp.map fun e => ({ obj := e } : VIPropertyWrap)) ∧
    (c.read_next_events mc (fun _ => .ok []) (fun _ => .ok [])).1 =
      .ok [] ∧
    (c.read_previous_events mc (fun _ => .ok []) (fun _ => .ok [])).1 =
      .ok [] := by
  refine ⟨?_, ?_, ?_, ?_⟩ <;>
    simp [VIEventHistoryCollector.read_next_events,
      VIEventHistoryCollector.read_previous_events,
      VIEventHistoryCollector.read_events, h, foldl_append_map]

/-- C7 (witness): instantiated at `max_count = 5` and a two-record
response. -/
theorem C7_witness :
    (PyVal.int 5).isInstInt = true ∧
    ((c0.read_next_events (.int 5) (fun _ => .ok ["ev-1", "ev-2"])
        (fun _ => .ok ["ev-1", "ev-2"])).1 =
      .ok (["ev-1", "ev-2"].map fun e => ({ obj := e } : VIPropertyWrap)) ∧
    (c0.read_previous_events (.int 5) (fun _ => .ok ["ev-1", "ev-2"])
        (fun _ => .ok ["ev-1", "ev-2"])).1 =
      .ok (["ev-1", "ev-2"].map fun e => ({ obj := e } : VIPropertyWrap)) ∧
    (c0.read_next_events (.int 5) (fun _ => .ok []) (fun _ => .ok [])).1 =
      .ok [] ∧
    (c0.read_previous_events (.int 5) (fun _ => .ok []) (fun _ => .ok [])).1 =
      .ok []) :=
  ⟨rfl, C7_read_wraps_records_in_order c0 (.int 5) ["ev-1", "ev-2"] rfl⟩

/-- The state left behind by `get_latest_events`: only the property-view
cache changes, to the freshly fetched value. -/
theorem get_latest_events_state (c : VIEventHistoryCollector)
    (sv : Option (List EventRef)) :
    (c.get_latest_events sv).2.1 =
      { c with props := { c.props with cache := some sv } } := by
  obtain ⟨m, p⟩ := c
  obtain _ | page := sv <;>
    simp [VIEventHistoryCollector.get_latest_events, VIPropsView.flushCache,
      VIPropsView.getLatestPage]

/-- C8: the collector handle is set once, to the value returned by the
create call, at successful construction; no subsequent operation changes
the instance (reset, rewind, destroy, set page size, reads leave it
untouched; `get_latest_events` changes only the property-view cache);
every operation's single request carries that same handle; and an
operation invoked after `destroy_collector` is not locally guarded — it
still issues its request against the unchanged handle. -/
theorem C8_handle_stable_and_unguarded (c : VIEventHistoryCollector)
    (resp em : MOR) (it : Option (List String))
    (iu : Option (List String × Bool)) (bt et : Option TimeTuple)
    (pr pw pd : MsgWithThis → RpcResult Unit)
    (pps : PageSizeRequest → RpcResult Unit)
    (pn pp : ReadEventsRequest → RpcResult (List EventRef))
    (v : PyVal) (sv : Option (List EventRef)) :
    (viehc_init em it iu bt et (fun _ => .ok resp)).1.mor = some resp ∧
    (c.reset_collector pr).1 = c ∧
    (c.rewind_collector pw).1 = c ∧
    (c.destroy_collector pd).1 = c ∧
    (c.set_collector_page_size v pps).1 = c ∧
    (c.get_latest_events sv).2.1 =
      { c with props := { c.props with cache := some sv } } ∧
    (c.reset_collector pr).2.2 = [.resetCollector { this_ := c.mor }] ∧
    (c.rewind_collector pw).2.2 = [.rewindCollector { this_ := c.mor }] ∧
    (c.destroy_collector pd).2.2 = [.destroyCollector { this_ := c.mor }] ∧
    (c.set_collector_page_size v pps).2.2 =
      [.setCollectorPageSize { this_ := c.mor, maxCount := v }] ∧
    (c.read_next_events (.int 1) pn pp).2 =
      [.readNextEvents { this_ := c.mor, maxCount := .int 1 }] ∧
    (c.read_previous_events (.int 1) pn pp).2 =
      [.readPreviousEvents { this_ := c.mor, maxCount := .int 1 }] ∧
    ((c.destroy_collector pd).1.reset_collector pr).2.2 =
      [.resetCollector { this_ := c.mor }] ∧
    ((c.destroy_collector pd).1.read_next_events (.int 1) pn pp).2 =
      [.readNextEvents { this_ := c.mor, maxCount := .int 1 }] := by
  refine ⟨rfl, rfl, rfl, rfl, rfl, ?_, rfl, rfl, rfl, rfl, ?_, ?_, rfl, ?_⟩
  · exact get_latest_events_state c sv
  all_goals
    simp [VIEventHistoryCollector.read_next_events,
      VIEventHistoryCollector.read_previous_events,
      VIEventHistoryCollector.read_events,
      VIEventHistoryCollector.destroy_collector]
  all_goals
    rcases pn { this_ := c.mor, maxCount := .int 1 } with _ | _ <;>
      rcases pp { this_ := c.mor, maxCount := .int 1 } with _ | _ <;> rfl

/-- C9: the local integer check on `max_count` accepts Python booleans
(`bool` is a subclass of `int`): `read_next_events(True)` and
`read_previous_events(False)` pass validation and issue the network read
with the boolean as the request's `maxCount`, instead of raising the
parameter-validation error. -/
theorem C9_bool_max_count_passes_check (c : VIEventHistoryCollector)
    (b : Bool) (resp : List EventRef)
    (pn pp : ReadEventsRequest → RpcResult (List EventRef)) :
    (PyVal.bool b).isInstInt = true ∧
    c.read_next_events (.bool true) (fun _ => .ok resp) pp =
      (.ok (resp.map fun e => ({ obj := e } : VIPropertyWrap)),
        [.readNextEvents { this_ := c.mor, maxCount := .bool true }]) ∧
    c.read_previous_events (.bool false) pn (fun _ => .ok resp) =
      (.ok (resp.map fun e => ({ obj := e } : VIPropertyWrap)),
        [.readPreviousEvents { this_ := c.mor, maxCount := .bool false }]) := by
  refine ⟨rfl, ?_, ?_⟩ <;>
    simp [VIEventHistoryCollector.read_next_events,
      VIEventHistoryCollector.read_previous_events,
      VIEventHistoryCollector.read_events, PyVal.isInstInt, foldl_append_map]

/-- C10: `set_collector_page_size` performs no local validation of
`maxCount`: for every value, including non-integers, the request is sent
with the value as-is and no parameter-validation error can escape. -/
theorem C10_page_size_unvalidated (c : VIEventHistoryCollector) (v : PyVal)
    (proxy : PageSizeRequest → RpcResult Unit) :
    (c.set_collector_page_size v proxy).2.2 =
      [.setCollectorPageSize { this_ := c.mor, maxCount := v }] ∧
    resultParamError (c.set_collector_page_size v proxy).2.1 = false := by
  refine ⟨rfl, ?_⟩
  simp only [VIEventHistoryCollector.set_collector_page_size]
  rcases proxy { this_ := c.mor, maxCount := v } with _ | _ <;> rfl
